import Mathlib

/-!
Verification of the golf-tracker model-conversion pipeline
(`scripts/enhanced_convert_yolov8_to_tflite.py`).

The script is a sequential orchestration of third-party library calls
(ultralytics export, TFLite conversion, interpreter inference, filesystem
writes).  We embed it shallowly: each external call is an oracle of type
`PyResult` (normal return or a raised exception message), and every pipeline
function is a pure Lean function of the oracle world that returns its Python
return value together with an ordered trace of observable events (library
calls, filesystem writes, inference invocations).  Control flow — `try`/
`except` blocks, early returns, loop bounds, branch order — is translated
directly from the source.
-/

namespace GolfConv

/-- Outcome of a Python expression that may raise: a normal value or an
exception carrying a message. -/
inductive PyResult (α : Type) where
  | ok : α → PyResult α
  | exn : String → PyResult α
  deriving DecidableEq

/-- True when the result is a normal return. -/
def PyResult.isOk {α : Type} : PyResult α → Bool
  | .ok _ => true
  | .exn _ => false

/-- Observable events of a pipeline run, in program order: library calls,
filesystem writes and inference invocations. -/
inductive Event where
  | mkdirOutputDir
  | loadModelCall
  | exportCall
  | renameOnnx
  | onnxCheck
  | convertAttempt (q : String)
  | writeFile (p : String)
  | verifyAttempt
  | benchWarmupInvoke
  | benchTimedInvoke
  | benchReport (avgMs fps : ℚ)
  | writeMetadata (p : String)
  deriving DecidableEq

/-- True exactly on `convertAttempt` events. -/
def Event.isConvAttempt : Event → Bool
  | .convertAttempt _ => true
  | _ => false

/-- Distribution of a synthetically generated tensor's entries.
`unitFloat` models `np.random.random` (floats drawn from [0, 1)v);
`uint8Int` models `np.random.randint(0, 256)` (integers in [0, 256)). -/
inductive RandKind where
  | unitFloat
  | uint8Int
  deriving DecidableEq

/-- Inclusive lower bound of the values a `RandKind` draws. -/
def RandKind.lo : RandKind → ℚ
  | .unitFloat => 0
  | .uint8Int => 0

/-- Exclusive upper bound of the values a `RandKind` draws. -/
def RandKind.hiExcl : RandKind → ℚ
  | .unitFloat => 1
  | .uint8Int => 256

/-- A synthetic tensor: its shape and the distribution of its entries. -/
structure SynthTensor where
  shape : List Nat
  kind : RandKind
  deriving DecidableEq

/-- TensorFlow numeric types the script mentions. -/
inductive TFType where
  | float32
  | float16
  | uint8
  deriving DecidableEq

/-- TFLite op-set selections the script mentions. -/
inductive OpsSet where
  | TFLITE_BUILTINS
  | SELECT_TF_OPS
  | TFLITE_BUILTINS_INT8
  deriving DecidableEq

/-- TFLite converter optimization flags the script mentions. -/
inductive Optimize where
  | DEFAULT
  deriving DecidableEq

/-- The converter object's identity: output directory and model base name
(`__init__`, lines 33-46).  `model_path` plays no role in path construction
beyond the existence check done in `main`. -/
structure Converter where
  outputDir : String
  modelName : String

/-- Fixed input resolution, set unconditionally in `__init__`
(`self.input_size = 640`). -/
def input_size : Nat := 640

/-- Output path `<output_dir>/<name>.onnx` (`self.onnx_path`). -/
def onnxPath (c : Converter) : String :=
  c.outputDir ++ "/" ++ c.modelName ++ ".onnx"

/-- Output path `<output_dir>/<name>_metadata.json` (`create_model_metadata`). -/
def metadataPath (c : Converter) : String :=
  c.outputDir ++ "/" ++ c.modelName ++ "_metadata.json"

/-- The representative dataset generator (`_representative_dataset_generator`,
lines 169-177): `for _ in range(100)` yields a fresh
`np.random.random((1, input_size, input_size, 3)).astype(np.float32)` tensor,
i.e. a bounded stream of 100 synthetic tensors of that shape with entries
drawn from [0, 1). -/
def representative_dataset (n : Nat) : List SynthTensor :=
  List.replicate 100 { shape := [1, n, n, 3], kind := RandKind.unitFloat }

/-- Configuration the script installs on the TFLite converter object in
`convert_to_tflite` (lines 115-148), as a function of the quantization
string.  The source branches `if quantization == "fp16"`,
`elif quantization == "int8"`, `else` (the FP32 default path). -/
structure ConverterConfig where
  optimizations : List Optimize
  supportedTypes : List TFType
  supportedOps : List OpsSet
  representativeDataset : Option (List SynthTensor)
  inferenceInputType : Option TFType
  inferenceOutputType : Option TFType
  experimentalNewConverter : Bool
  allowCustomOps : Bool
  outputPath : String

/-- Builds the converter configuration for a quantization mode, mirroring the
assignments of `convert_to_tflite` lines 115-148 branch by branch. -/
def convertConfig (c : Converter) (q : String) : ConverterConfig :=
  if q = "fp16" then
    { optimizations := [Optimize.DEFAULT]
      supportedTypes := [TFType.float16]
      supportedOps := [OpsSet.TFLITE_BUILTINS, OpsSet.SELECT_TF_OPS]
      representativeDataset := Option.none
      inferenceInputType := Option.none
      inferenceOutputType := Option.none
      experimentalNewConverter := true
      allowCustomOps := false
      outputPath := c.outputDir ++ "/" ++ c.modelName ++ "_fp16.tflite" }
  else if q = "int8" then
    { optimizations := [Optimize.DEFAULT]
      supportedTypes := []
      supportedOps := [OpsSet.TFLITE_BUILTINS_INT8, OpsSet.TFLITE_BUILTINS]
      representativeDataset := Option.some (representative_dataset input_size)
      inferenceInputType := Option.some TFType.uint8
      inferenceOutputType := Option.some TFType.uint8
      experimentalNewConverter := true
      allowCustomOps := false
      outputPath := c.outputDir ++ "/" ++ c.modelName ++ "_int8.tflite" }
  else
    { optimizations := [Optimize.DEFAULT]
      supportedTypes := [TFType.float32]
      supportedOps := [OpsSet.TFLITE_BUILTINS, OpsSet.SELECT_TF_OPS]
      representativeDataset := Option.none
      inferenceInputType := Option.none
      inferenceOutputType := Option.none
      experimentalNewConverter := true
      allowCustomOps := false
      outputPath := c.outputDir ++ "/" ++ c.modelName ++ ".tflite" }

/-- Oracle world of `_verify_tflite_model` (lines 179-214): its `try` block is
a sequence of library calls (interpreter construction, tensor allocation, one
test inference) any of which may raise; `ok` carries the output shape of the
test inference. -/
structure VerifyWorld where
  ops : PyResult (List Nat)

/-- `_verify_tflite_model`: runs the library calls; `return True` at the end
of the `try`, `except` catches everything and returns `False` (lines
210-214).  Never raises. -/
def verify_tflite (v : VerifyWorld) : Bool × List Event :=
  match v.ops with
  | .ok _ => (true, [Event.verifyAttempt])
  | .exn _ => (false, [Event.verifyAttempt])

/-- Oracle world of `_benchmark_model` (lines 216-259): interpreter
construction and allocation, per-call `set_tensor`/`invoke` outcomes indexed
by call number (warm-ups are calls 0-4, timed runs 5 onward), successive
`time.time()` readings (in seconds), and the `model_path.stat()` call of the
size log line. -/
structure BenchWorld where
  createOk : PyResult Unit
  allocOk : PyResult Unit
  setOk : Nat → PyResult Unit
  invokeOk : Nat → PyResult Unit
  clock : Nat → ℚ
  statOk : PyResult Unit

/-- Latency in milliseconds of the j-th timed benchmark iteration:
`(end_time - start_time) * 1000` with the two `time.time()` readings of that
iteration (readings 2j and 2j+1). -/
def timedDiff (bw : BenchWorld) (j : Nat) : ℚ :=
  (bw.clock (2 * j + 1) - bw.clock (2 * j)) * 1000

/-- The warm-up loop (`for _ in range(5)`, lines 235-237): `set_tensor` then
`invoke`, starting at call index k, n iterations; stops at the first raised
exception.  Returns the loop outcome and one event per completed inference. -/
def benchWarm (bw : BenchWorld) : Nat → Nat → PyResult Unit × List Event
  | _, 0 => (.ok (), [])
  | k, n + 1 =>
    match bw.setOk k with
    | .exn s => (.exn s, [])
    | .ok _ =>
      match bw.invokeOk k with
      | .exn s => (.exn s, [])
      | .ok _ =>
        let r := benchWarm bw (k + 1) n
        (r.1, Event.benchWarmupInvoke :: r.2)

/-- The timed loop (`for _ in range(num_runs)`, lines 242-247): reads the
clock, runs `set_tensor` and `invoke` (call index 5 + j), reads the clock
again and appends `(end - start) * 1000` to the times list; stops at the
first raised exception. -/
def benchTimed (bw : BenchWorld) : Nat → Nat → PyResult Unit × List Event × List ℚ
  | _, 0 => (.ok (), [], [])
  | j, n + 1 =>
    match bw.setOk (5 + j) with
    | .exn s => (.exn s, [], [])
    | .ok _ =>
      match bw.invokeOk (5 + j) with
      | .exn s => (.exn s, [], [])
      | .ok _ =>
        let r := benchTimed bw (j + 1) n
        (r.1, Event.benchTimedInvoke :: r.2.1, timedDiff bw j :: r.2.2)

/-- `_benchmark_model` (lines 216-259, `num_runs` defaults to 50): interpreter
construction and allocation, 5 warm-up inferences, `num_runs` timed
inferences, then `avg = np.mean(times)`, `fps = 1000.0 / avg`, the report log
lines (one of which calls `model_path.stat()`), all inside one `try` whose
`except` catches and logs.  The function returns `None` in Python; we expose
the reported `(avg, fps)` pair as the value, `Option.none` when an exception
was caught.  Never raises. -/
def benchmark_model (bw : BenchWorld) (numRuns : Nat := 50) :
    Option (ℚ × ℚ) × List Event :=
  match bw.createOk with
  | .exn _ => (Option.none, [])
  | .ok _ =>
    match bw.allocOk with
    | .exn _ => (Option.none, [])
    | .ok _ =>
      let wr := benchWarm bw 0 5
      match wr.1 with
      | .exn _ => (Option.none, wr.2)
      | .ok _ =>
        let tr := benchTimed bw 0 numRuns
        match tr.1 with
        | .exn _ => (Option.none, wr.2 ++ tr.2.1)
        | .ok _ =>
          let times := tr.2.2
          let avg := times.sum / (times.length : ℚ)
          let fps := 1000 / avg
          let evs := wr.2 ++ tr.2.1 ++ [Event.benchReport avg fps]
          match bw.statOk with
          | .exn _ => (Option.none, evs)
          | .ok _ => (Option.some (avg, fps), evs)

/-- Oracle world of one whole pipeline run: the outcome of every external
call the script makes.  Per-quantization oracles are keyed by the
quantization string, since each mode is converted at most once per run. -/
structure World where
  sourceExists : Bool
  mkdirOk : PyResult Unit
  loadOk : PyResult Unit
  exportOk : PyResult Unit
  generatedOnnxExists : Bool
  renameOk : PyResult Unit
  onnxVerifyOk : PyResult Unit
  convertOk : String → PyResult Unit
  saveOk : String → PyResult Unit
  verifyW : String → VerifyWorld
  benchW : String → BenchWorld
  metadataOk : PyResult Unit

/-- `load_yolo_model` (lines 48-62): `YOLO(path)` may raise; the `except`
logs and re-raises, so the exception propagates to the caller. -/
def load_yolo_model (w : World) : PyResult Unit × List Event :=
  (w.loadOk, [Event.loadModelCall])

/-- `_verify_onnx_model` (lines 93-107): `onnx.load` plus
`onnx.checker.check_model`; `return True`, `except` returns `False`.
Never raises. -/
def verify_onnx (w : World) : Bool × List Event :=
  match w.onnxVerifyOk with
  | .ok _ => (true, [Event.onnxCheck])
  | .exn _ => (false, [Event.onnxCheck])

/-- `export_to_onnx` (lines 64-91): `model.export(...)`, then — only if the
library's default output file `model_path.with_suffix('.onnx')` exists —
renames it to `onnx_path`; then `_verify_onnx_model()` whose boolean result is
discarded; `return True`; the `except` arm returns `False`. -/
def export_to_onnx (c : Converter) (w : World) : Bool × List Event :=
  match w.exportOk with
  | .exn _ => (false, [Event.exportCall])
  | .ok _ =>
    if w.generatedOnnxExists then
      match w.renameOk with
      | .exn _ => (false, [Event.exportCall])
      | .ok _ =>
        let v := verify_onnx w
        (true, [Event.exportCall, Event.renameOnnx] ++ v.2)
    else
      let v := verify_onnx w
      (true, [Event.exportCall] ++ v.2)

/-- `convert_to_tflite` (lines 109-167): builds the converter and its
configuration (oracle `convertOk` covers `from_onnx` and `convert()`), writes
the model file at the mode-specific path (oracle `saveOk`), then runs
`_verify_tflite_model` and `_benchmark_model`, both of whose results are
discarded; `return True`; the `except` arm returns `False`. -/
def convert_to_tflite (c : Converter) (w : World) (q : String) : Bool × List Event :=
  let cfg := convertConfig c q
  match w.convertOk q with
  | .exn _ => (false, [Event.convertAttempt q])
  | .ok _ =>
    match w.saveOk q with
    | .exn _ => (false, [Event.convertAttempt q, Event.writeFile cfg.outputPath])
    | .ok _ =>
      let v := verify_tflite (w.verifyW q)
      let b := benchmark_model (w.benchW q)
      (true, Event.convertAttempt q :: Event.writeFile cfg.outputPath :: (v.2 ++ b.2))

/-- The metadata record built by `create_model_metadata` (lines 263-283). -/
structure Metadata where
  name : String
  version : String
  description : String
  inputShape : List Nat
  inputType : String
  inputNormalization : String
  classes : List String
  confidenceThreshold : ℚ
  nmsThreshold : ℚ
  preResize : List Nat
  preNormalize : Bool
  preMean : List ℚ
  preStd : List ℚ
  postOutputFormat : String
  postApplyNms : Bool

/-- The metadata value serialized by `create_model_metadata` (the `metadata`
dict of lines 263-283; `json.dump`/`json.load` round-trips these strings,
integers, exact decimal fractions and lists unchanged). -/
def metadataValue (c : Converter) : Metadata :=
  { name := c.modelName
    version := "1.0"
    description := "YOLOv8 model for golf ball and club head detection"
    inputShape := [1, input_size, input_size, 3]
    inputType := "float32"
    inputNormalization := "0-1"
    classes := ["ball", "club_head"]
    confidenceThreshold := 0.25
    nmsThreshold := 0.45
    preResize := [input_size, input_size]
    preNormalize := true
    preMean := [0, 0, 0]
    preStd := [255, 255, 255]
    postOutputFormat := "yolov8"
    postApplyNms := true }

/-- `create_model_metadata` (lines 261-290): opens
`<output_dir>/<name>_metadata.json` for writing and serializes the metadata
record; no `try` guard, so a raised exception propagates to the caller. -/
def create_model_metadata (c : Converter) (w : World) : PyResult Unit × List Event :=
  (w.metadataOk, [Event.writeMetadata (metadataPath c)])

/-- `convert_all_variants` (lines 292-321): load the model (propagating
failure), export to ONNX once (`return False` on failure), then loop over
`[("none", "FP32"), ("fp16", "FP16"), ("int8", "INT8")]` in that order,
clearing `success` on each convert failure, then write metadata once
(propagating failure), and return `success`. -/
def convert_all_variants (c : Converter) (w : World) : PyResult Bool × List Event :=
  let l := load_yolo_model w
  match l.1 with
  | .exn s => (.exn s, l.2)
  | .ok _ =>
    let e := export_to_onnx c w
    if e.1 = false then
      (.ok false, l.2 ++ e.2)
    else
      let c0 := convert_to_tflite c w "none"
      let c1 := convert_to_tflite c w "fp16"
      let c2 := convert_to_tflite c w "int8"
      let m := create_model_metadata c w
      match m.1 with
      | .exn s => (.exn s, l.2 ++ e.2 ++ c0.2 ++ c1.2 ++ c2.2 ++ m.2)
      | .ok _ => (.ok (c0.1 && c1.1 && c2.1), l.2 ++ e.2 ++ c0.2 ++ c1.2 ++ c2.2 ++ m.2)

/-- Parsed command-line arguments of `main` (lines 324-331), with the
argparse defaults. -/
structure Args where
  modelPath : String
  outputDir : String := "./models"
  modelName : String := "golfclub_ball_yolov8n"
  quantization : String := "all"

/-- The converter object `main` constructs (line 339). -/
def converterOf (a : Args) : Converter :=
  { outputDir := a.outputDir, modelName := a.modelName }

/-- The body of `main`'s `try` block (lines 342-349): `convert_all_variants`
when quantization is "all"; otherwise load, export, and — only when export
succeeded — convert the one requested mode and write metadata, with `success`
taken from the convert step. -/
def mainBody (a : Args) (c : Converter) (w : World) : PyResult Bool × List Event :=
  if a.quantization = "all" then
    convert_all_variants c w
  else
    let l := load_yolo_model w
    match l.1 with
    | .exn s => (.exn s, l.2)
    | .ok _ =>
      let e := export_to_onnx c w
      if e.1 then
        let conv := convert_to_tflite c w a.quantization
        let m := create_model_metadata c w
        match m.1 with
        | .exn s => (.exn s, l.2 ++ e.2 ++ conv.2 ++ m.2)
        | .ok _ => (.ok conv.1, l.2 ++ e.2 ++ conv.2 ++ m.2)
      else
        (.ok false, l.2 ++ e.2)

/-- `main` (lines 323-365): returns 1 immediately when the source model file
does not exist (before constructing the converter, hence before any
filesystem write); then the converter's `__init__` runs `mkdir` outside the
`try` block, so its exceptions propagate out of `main`; then the `try` body
runs, its caught exceptions and `success == False` both yielding return
value 1, and `success == True` yielding 0. -/
def mainResult (a : Args) (w : World) : PyResult Nat × List Event :=
  if w.sourceExists = false then
    (.ok 1, [])
  else
    match w.mkdirOk with
    | .exn s => (.exn s, [Event.mkdirOutputDir])
    | .ok _ =>
      let b := mainBody a (converterOf a) w
      match b.1 with
      | .ok true => (.ok 0, Event.mkdirOutputDir :: b.2)
      | .ok false => (.ok 1, Event.mkdirOutputDir :: b.2)
      | .exn _ => (.ok 1, Event.mkdirOutputDir :: b.2)

/-- Process exit status of `sys.exit(main())` (line 368): `main`'s return
value, or 1 when an exception escapes `main` uncaught (the Python interpreter
exits with status 1 on an uncaught exception). -/
def processExit (a : Args) (w : World) : Nat :=
  match (mainResult a w).1 with
  | .ok n => n
  | .exn _ => 1

/-- Mean benchmark latency in milliseconds over the 50 timed runs, written
directly from the clock readings: `np.mean` of the per-iteration
`(end - start) * 1000` values. -/
def benchAvg (bw : BenchWorld) : ℚ :=
  ((List.range 50).map (timedDiff bw)).sum / 50

/-! Concrete worlds used by witnesses and counterexamples. -/

/-- A benchmark oracle world in which every library call succeeds and the
clock advances one millisecond per reading. -/
def bwOk : BenchWorld :=
  { createOk := PyResult.ok (), allocOk := PyResult.ok (),
    setOk := fun _ => PyResult.ok (), invokeOk := fun _ => PyResult.ok (),
    clock := fun n => (n : ℚ) / 1000, statOk := PyResult.ok () }

/-- A pipeline oracle world in which every external call succeeds. -/
def wOk : World :=
  { sourceExists := true, mkdirOk := PyResult.ok (), loadOk := PyResult.ok (),
    exportOk := PyResult.ok (), generatedOnnxExists := true,
    renameOk := PyResult.ok (), onnxVerifyOk := PyResult.ok (),
    convertOk := fun _ => PyResult.ok (), saveOk := fun _ => PyResult.ok (),
    verifyW := fun _ => { ops := PyResult.ok [1, 84, 8400] },
    benchW := fun _ => bwOk, metadataOk := PyResult.ok () }

/-- The all-successful world except that the library's default ONNX output
file is absent after the export call. -/
def wNoDefaultOnnx : World := { wOk with generatedOnnxExists := false }

/-- The all-successful world except that every TFLite conversion call
raises. -/
def wConvertFails : World :=
  { wOk with convertOk := fun _ => PyResult.exn "conversion error" }

/-- The converter built from the default command-line options. -/
def cOk : Converter := { outputDir := "./models", modelName := "golfclub_ball_yolov8n" }

/-- Arguments requesting all variants (the default). -/
def argsAll : Args := { modelPath := "yolov8n.pt" }

/-- Arguments requesting only the unquantized variant. -/
def argsNone : Args := { modelPath := "yolov8n.pt", quantization := "none" }

/-! Helper lemmas characterizing the embedded functions. -/

/-- When no `set_tensor`/`invoke` call raises, the warm-up loop completes all
its iterations and records one warm-up event per iteration. -/
theorem benchWarm_ok (bw : BenchWorld) (hs : ∀ k, bw.setOk k = PyResult.ok ())
    (hi : ∀ k, bw.invokeOk k = PyResult.ok ()) :
    ∀ n k, benchWarm bw k n = (PyResult.ok (), List.replicate n Event.benchWarmupInvoke) := by
  intro n
  induction n with
  | zero => intro k; rfl
  | succ m ih =>
    intro k
    simp [benchWarm, hs k, hi k, ih (k + 1), List.replicate_succ]

/-- When no `set_tensor`/`invoke` call raises, the timed loop completes all
its iterations, records one timed event per iteration, and collects exactly
the per-iteration clock differences. -/
theorem benchTimed_ok (bw : BenchWorld) (hs : ∀ k, bw.setOk k = PyResult.ok ())
    (hi : ∀ k, bw.invokeOk k = PyResult.ok ()) :
    ∀ n j, benchTimed bw j n =
      (PyResult.ok (), List.replicate n Event.benchTimedInvoke,
        (List.range' j n).map (timedDiff bw)) := by
  intro n
  induction n with
  | zero => intro j; rfl
  | succ m ih =>
    intro j
    simp [benchTimed, hs (5 + j), hi (5 + j), ih (j + 1), List.replicate_succ,
      List.range'_succ]

/-- Every event the warm-up loop records is a warm-up inference event. -/
theorem benchWarm_events (bw : BenchWorld) :
    ∀ n k, ∀ e ∈ (benchWarm bw k n).2, e = Event.benchWarmupInvoke := by
  intro n
  induction n with
  | zero => intro k e he; simp [benchWarm] at he
  | succ m ih =>
    intro k e he
    simp only [benchWarm] at he
    cases hsk : bw.setOk k with
    | exn s => rw [hsk] at he; simp at he
    | ok _ =>
      rw [hsk] at he
      cases hik : bw.invokeOk k with
      | exn s => rw [hik] at he; simp at he
      | ok _ =>
        rw [hik] at he
        simp only [List.mem_cons] at he
        rcases he with rfl | he
        · rfl
        · exact ih (k + 1) e he

/-- Every event the timed loop records is a timed inference event. -/
theorem benchTimed_events (bw : BenchWorld) :
    ∀ n j, ∀ e ∈ (benchTimed bw j n).2.1, e = Event.benchTimedInvoke := by
  intro n
  induction n with
  | zero => intro j e he; simp [benchTimed] at he
  | succ m ih =>
    intro j e he
    simp only [benchTimed] at he
    cases hsk : bw.setOk (5 + j) with
    | exn s => rw [hsk] at he; simp at he
    | ok _ =>
      rw [hsk] at he
      cases hik : bw.invokeOk (5 + j) with
      | exn s => rw [hik] at he; simp at he
      | ok _ =>
        rw [hik] at he
        simp only [List.mem_cons] at he
        rcases he with rfl | he
        · rfl
        · exact ih (j + 1) e he

/-- Every event the benchmark step records is a warm-up inference, a timed
inference, or the benchmark report. -/
theorem benchmark_events (bw : BenchWorld) (m : Nat) :
    ∀ e ∈ (benchmark_model bw m).2, e = Event.benchWarmupInvoke ∨
      e = Event.benchTimedInvoke ∨ ∃ a f, e = Event.benchReport a f := by
  intro e he
  simp only [benchmark_model] at he
  cases hc : bw.createOk with
  | exn s => rw [hc] at he; simp at he
  | ok _ =>
    rw [hc] at he
    cases hal : bw.allocOk with
    | exn s => rw [hal] at he; simp at he
    | ok _ =>
      rw [hal] at he
      cases hw : (benchWarm bw 0 5).1 with
      | exn s =>
        rw [hw] at he
        exact Or.inl (benchWarm_events bw 5 0 e he)
      | ok _ =>
        rw [hw] at he
        cases ht : (benchTimed bw 0 m).1 with
        | exn s =>
          rw [ht] at he
          simp only [List.mem_append] at he
          rcases he with he | he
          · exact Or.inl (benchWarm_events bw 5 0 e he)
          · exact Or.inr (Or.inl (benchTimed_events bw m 0 e he))
        | ok _ =>
          rw [ht] at he
          cases hst : bw.statOk <;> rw [hst] at he <;>
          · simp only [List.mem_append, List.mem_singleton] at he
            rcases he with (he | he) | rfl
            · exact Or.inl (benchWarm_events bw 5 0 e he)
            · exact Or.inr (Or.inl (benchTimed_events bw m 0 e he))
            · exact Or.inr (Or.inr ⟨_, _, rfl⟩)

/-- The benchmark trace contains no export call. -/
theorem benchmark_count_exportCall (bw : BenchWorld) (m : Nat) :
    (benchmark_model bw m).2.count Event.exportCall = 0 := by
  rw [List.count_eq_zero]
  intro hmem
  rcases benchmark_events bw m _ hmem with h | h | ⟨a, f, h⟩ <;> simp at h

/-- The benchmark trace contains no convert attempt. -/
theorem benchmark_filter_conv (bw : BenchWorld) (m : Nat) :
    (benchmark_model bw m).2.filter Event.isConvAttempt = [] := by
  rw [List.filter_eq_nil_iff]
  intro e hmem
  rcases benchmark_events bw m _ hmem with h | h | ⟨a, f, h⟩ <;>
    simp [h, Event.isConvAttempt]

/-- The convert step's boolean result is exactly the success of the library
conversion call and the file write; the validation and benchmark diagnostics
do not enter into it. -/
theorem convert_result_eq (c : Converter) (w : World) (q : String) :
    (convert_to_tflite c w q).1 = ((w.convertOk q).isOk && (w.saveOk q).isOk) := by
  simp only [convert_to_tflite]
  cases w.convertOk q <;> cases w.saveOk q <;> simp [PyResult.isOk]

/-- The export step's boolean result is exactly the success of the library
export call and, when the library's default output file exists, of the
rename; the ONNX structural check does not enter into it. -/
theorem export_result_eq (c : Converter) (w : World) :
    (export_to_onnx c w).1 =
      (w.exportOk.isOk && (!w.generatedOnnxExists || w.renameOk.isOk)) := by
  simp only [export_to_onnx]
  cases w.exportOk <;> cases h : w.generatedOnnxExists <;> cases w.renameOk <;>
    simp [PyResult.isOk, h, verify_onnx]

/-- The export trace records the export library call exactly once. -/
theorem export_count_exportCall (c : Converter) (w : World) :
    (export_to_onnx c w).2.count Event.exportCall = 1 := by
  simp only [export_to_onnx, verify_onnx]
  cases w.exportOk <;> cases h : w.generatedOnnxExists <;> cases w.renameOk <;>
    cases w.onnxVerifyOk <;> simp [h, List.count_cons]

/-- The export trace contains no convert attempt. -/
theorem export_filter_conv (c : Converter) (w : World) :
    (export_to_onnx c w).2.filter Event.isConvAttempt = [] := by
  simp only [export_to_onnx, verify_onnx]
  cases w.exportOk <;> cases h : w.generatedOnnxExists <;> cases w.renameOk <;>
    cases w.onnxVerifyOk <;> simp [h, Event.isConvAttempt]

/-- The convert-step trace contains no export call. -/
theorem convert_count_exportCall (c : Converter) (w : World) (q : String) :
    (convert_to_tflite c w q).2.count Event.exportCall = 0 := by
  simp only [convert_to_tflite, verify_tflite]
  cases w.convertOk q with
  | exn s => simp
  | ok _ =>
    cases w.saveOk q with
    | exn s => simp
    | ok _ =>
      cases (w.verifyW q).ops <;>
        simp [List.count_cons, List.count_append, benchmark_count_exportCall]

/-- The convert-step trace records exactly one convert attempt, for its own
quantization mode. -/
theorem convert_filter_conv (c : Converter) (w : World) (q : String) :
    (convert_to_tflite c w q).2.filter Event.isConvAttempt =
      [Event.convertAttempt q] := by
  simp only [convert_to_tflite, verify_tflite]
  cases w.convertOk q with
  | exn s => simp [Event.isConvAttempt]
  | ok _ =>
    cases w.saveOk q with
    | exn s => simp [Event.isConvAttempt]
    | ok _ =>
      cases (w.verifyW q).ops <;>
        simp [Event.isConvAttempt, List.filter_append, benchmark_filter_conv]

/-- When loading, export and the metadata write succeed, the aggregate result
of `convert_all_variants` is the AND over the three modes of the conversion
call's and the file write's success. -/
theorem convert_all_result_formula (c : Converter) (w : World)
    (hl : w.loadOk = PyResult.ok ()) (he : (export_to_onnx c w).1 = true)
    (hm : w.metadataOk = PyResult.ok ()) :
    (convert_all_variants c w).1 =
      PyResult.ok (((w.convertOk "none").isOk && (w.saveOk "none").isOk) &&
        ((w.convertOk "fp16").isOk && (w.saveOk "fp16").isOk) &&
        ((w.convertOk "int8").isOk && (w.saveOk "int8").isOk)) := by
  simp [convert_all_variants, load_yolo_model, create_model_metadata, hl, he, hm,
    convert_result_eq]

/-! Claim theorems. -/

/-- C1: in `convert_all_variants`, the aggregate success result equals the
logical AND of the three per-variant `convert_to_tflite` results; replacing
the validation and benchmark oracles arbitrarily (in particular by failing
ones) never changes the aggregate result, and a raised exception inside the
validation step is caught and reported as the boolean `False`. -/
theorem convert_all_aggregate_and (c : Converter) (w : World)
    (hl : w.loadOk = PyResult.ok ()) (he : (export_to_onnx c w).1 = true)
    (hm : w.metadataOk = PyResult.ok ()) :
    (convert_all_variants c w).1 =
      PyResult.ok ((convert_to_tflite c w "none").1 && (convert_to_tflite c w "fp16").1 &&
        (convert_to_tflite c w "int8").1)
    ∧ (∀ V B, (convert_all_variants c { w with verifyW := V, benchW := B }).1 =
        (convert_all_variants c w).1)
    ∧ (∀ s, (verify_tflite { ops := PyResult.exn s }).1 = false) := by
  refine ⟨?_, ?_, ?_⟩
  · simp [convert_all_variants, load_yolo_model, create_model_metadata, hl, he, hm]
  · intro V B
    have hl' : ({ w with verifyW := V, benchW := B } : World).loadOk = PyResult.ok () := hl
    have hm' : ({ w with verifyW := V, benchW := B } : World).metadataOk = PyResult.ok () := hm
    have he' : (export_to_onnx c { w with verifyW := V, benchW := B }).1 = true := he
    rw [convert_all_result_formula c { w with verifyW := V, benchW := B } hl' he' hm',
      convert_all_result_formula c w hl he hm]
  · intro s
    rfl

/-- C1 witness: in the all-successful world the hypotheses hold and the
aggregate result is the AND of the three convert results. -/
theorem convert_all_aggregate_and_witness :
    (export_to_onnx cOk wOk).1 = true ∧
      (convert_all_variants cOk wOk).1 = PyResult.ok true := by
  have h := (convert_all_aggregate_and cOk wOk rfl rfl rfl).1
  rw [h]
  exact ⟨rfl, rfl⟩

/-- C2: when the positional source-model-path names a non-existing file, the
pipeline exits with status 1 and its event trace is empty — no directory
creation, no file write of any kind, and no library export call. -/
theorem missing_source_exits_before_writes (a : Args) (w : World)
    (h : w.sourceExists = false) :
    processExit a w = 1 ∧ (mainResult a w).2 = [] := by
  simp [processExit, mainResult, h]

/-- C2 witness: a concrete run on a world whose source file is missing. -/
theorem missing_source_exits_before_writes_witness :
    ({ wOk with sourceExists := false } : World).sourceExists = false ∧
      processExit argsAll { wOk with sourceExists := false } = 1 ∧
      (mainResult argsAll { wOk with sourceExists := false }).2 = [] :=
  ⟨rfl, missing_source_exits_before_writes argsAll { wOk with sourceExists := false } rfl⟩

/-- C3: `convert_all_variants` records the export library call exactly once;
if export fails it returns failure having attempted no convert step, and if
export succeeds the convert attempts in its trace are exactly
none, fp16, int8 in that order. -/
theorem convert_all_attempts_order (c : Converter) (w : World)
    (hl : w.loadOk = PyResult.ok ()) :
    (convert_all_variants c w).2.count Event.exportCall = 1
    ∧ ((export_to_onnx c w).1 = false →
        (convert_all_variants c w).1 = PyResult.ok false ∧
        (convert_all_variants c w).2.filter Event.isConvAttempt = [])
    ∧ ((export_to_onnx c w).1 = true →
        (convert_all_variants c w).2.filter Event.isConvAttempt =
          [Event.convertAttempt "none", Event.convertAttempt "fp16",
            Event.convertAttempt "int8"]) := by
  refine ⟨?_, ?_, ?_⟩
  · cases he : (export_to_onnx c w).1 with
    | false =>
      simp [convert_all_variants, load_yolo_model, hl, he, List.count_append,
        List.count_cons, export_count_exportCall]
    | true =>
      cases hm : w.metadataOk with
      | exn s =>
        simp [convert_all_variants, load_yolo_model, create_model_metadata, hl, he, hm,
          List.count_append, List.count_cons, export_count_exportCall,
          convert_count_exportCall]
      | ok _ =>
        simp [convert_all_variants, load_yolo_model, create_model_metadata, hl, he, hm,
          List.count_append, List.count_cons, export_count_exportCall,
          convert_count_exportCall]
  · intro he
    constructor
    · simp [convert_all_variants, load_yolo_model, hl, he]
    · simp [convert_all_variants, load_yolo_model, hl, he, List.filter_append,
        export_filter_conv, Event.isConvAttempt]
  · intro he
    cases hm : w.metadataOk with
    | exn s =>
      simp [convert_all_variants, load_yolo_model, create_model_metadata, hl, he, hm,
        List.filter_append, export_filter_conv, convert_filter_conv, Event.isConvAttempt]
    | ok _ =>
      simp [convert_all_variants, load_yolo_model, create_model_metadata, hl, he, hm,
        List.filter_append, export_filter_conv, convert_filter_conv, Event.isConvAttempt]

/-- C3 witness: in the all-successful world export is attempted once and the
three convert attempts appear in the fixed order. -/
theorem convert_all_attempts_order_witness :
    (export_to_onnx cOk wOk).1 = true ∧
      (convert_all_variants cOk wOk).2.filter Event.isConvAttempt =
        [Event.convertAttempt "none", Event.convertAttempt "fp16",
          Event.convertAttempt "int8"] := by
  have h := (convert_all_attempts_order cOk wOk rfl).2.2
  exact ⟨rfl, h rfl⟩

/-- C4: the integer-quantization configuration, and only it, installs the
calibration stream: exactly 100 synthetic tensors of shape (1, 640, 640, 3)
whose entries are drawn from [0, 1); the unquantized and half-precision
configurations install no representative dataset. -/
theorem int8_calibration_only :
    (∀ c : Converter, (convertConfig c "int8").representativeDataset =
      Option.some (List.replicate 100
        { shape := [1, 640, 640, 3], kind := RandKind.unitFloat }))
    ∧ RandKind.unitFloat.lo = 0 ∧ RandKind.unitFloat.hiExcl = 1
    ∧ (∀ c : Converter, (convertConfig c "none").representativeDataset = Option.none)
    ∧ (∀ c : Converter, (convertConfig c "fp16").representativeDataset = Option.none) := by
  refine ⟨fun c => ?_, rfl, rfl, fun c => ?_, fun c => ?_⟩ <;> rfl

/-- C5: when no library call raises, the benchmark step performs exactly 5
warm-up inferences and exactly 50 timed inferences, and reports a throughput
equal to 1000 divided by the mean per-call latency in milliseconds; moreover
the benchmark oracle never influences the convert step's result, i.e. a
benchmark failure never propagates to the caller. -/
theorem benchmark_counts_and_throughput (bw : BenchWorld)
    (hc : bw.createOk = PyResult.ok ()) (ha : bw.allocOk = PyResult.ok ())
    (hs : ∀ k, bw.setOk k = PyResult.ok ()) (hi : ∀ k, bw.invokeOk k = PyResult.ok ())
    (hst : bw.statOk = PyResult.ok ()) :
    (benchmark_model bw).2.count Event.benchWarmupInvoke = 5
    ∧ (benchmark_model bw).2.count Event.benchTimedInvoke = 50
    ∧ (benchmark_model bw).1 = Option.some (benchAvg bw, 1000 / benchAvg bw)
    ∧ (∀ (c : Converter) (w : World) (B : String → BenchWorld) (q : String),
        (convert_to_tflite c { w with benchW := B } q).1 =
          (convert_to_tflite c w q).1) := by
  have hw := benchWarm_ok bw hs hi 5 0
  have ht := benchTimed_ok bw hs hi 50 0
  refine ⟨?_, ?_, ?_, ?_⟩
  · simp [benchmark_model, hc, ha, hst, hw, ht, List.count_append, List.count_replicate,
      List.count_cons]
  · simp [benchmark_model, hc, ha, hst, hw, ht, List.count_append, List.count_replicate,
      List.count_cons]
  · simp [benchmark_model, hc, ha, hst, hw, ht, benchAvg, List.range_eq_range']
  · intro c w B q
    rw [convert_result_eq, convert_result_eq]

/-- C5 witness: a concrete benchmark world in which every call succeeds. -/
theorem benchmark_counts_and_throughput_witness :
    (∀ k, bwOk.setOk k = PyResult.ok ()) ∧
      (benchmark_model bwOk).2.count Event.benchWarmupInvoke = 5 ∧
      (benchmark_model bwOk).2.count Event.benchTimedInvoke = 50 := by
  have h := benchmark_counts_and_throughput bwOk rfl rfl (fun _ => rfl) (fun _ => rfl) rfl
  exact ⟨fun _ => rfl, h.1, h.2.1⟩

/-- C6: the metadata record carries classes ["ball", "club_head"], confidence
threshold 0.25, NMS threshold 0.45 and input shape [1, 640, 640, 3], and the
write-metadata operation writes it to `<output_dir>/<name>_metadata.json`. -/
theorem metadata_sidecar_contents (c : Converter) (w : World) :
    (metadataValue c).classes = ["ball", "club_head"]
    ∧ (metadataValue c).confidenceThreshold = 0.25
    ∧ (metadataValue c).nmsThreshold = 0.45
    ∧ (metadataValue c).inputShape = [1, 640, 640, 3]
    ∧ (create_model_metadata c w).2 =
        [Event.writeMetadata (c.outputDir ++ "/" ++ c.modelName ++ "_metadata.json")] :=
  ⟨rfl, rfl, rfl, rfl, rfl⟩

/-- C7 counterexample: a successful export run in which the library's default
output file does not exist returns success without performing any
relocation, so "every successful run relocates" is false on the code. -/
theorem export_relocation_counterexample :
    (export_to_onnx cOk wNoDefaultOnnx).1 = true ∧
      Event.renameOnnx ∉ (export_to_onnx cOk wNoDefaultOnnx).2 := by
  refine ⟨rfl, ?_⟩
  decide

/-- C7 amended: a successful export run relocates the library's default
output file to the configured interchange path exactly when that default
file exists; when it is absent, export still returns success without any
relocation. -/
theorem export_relocates_iff_default_exists (c : Converter) (w : World)
    (h : (export_to_onnx c w).1 = true) :
    (w.generatedOnnxExists = true → Event.renameOnnx ∈ (export_to_onnx c w).2)
    ∧ (w.generatedOnnxExists = false → Event.renameOnnx ∉ (export_to_onnx c w).2) := by
  rw [export_result_eq] at h
  cases hx : w.exportOk with
  | exn s => rw [hx] at h; simp [PyResult.isOk] at h
  | ok _ =>
    cases hg : w.generatedOnnxExists with
    | false =>
      refine ⟨fun hgt => ?_, fun _ => ?_⟩
      · simp at hgt
      · cases hv : w.onnxVerifyOk <;>
          simp [export_to_onnx, verify_onnx, hx, hg, hv]
    | true =>
      cases hr : w.renameOk with
      | exn s => rw [hx, hg, hr] at h; simp [PyResult.isOk] at h
      | ok _ =>
        refine ⟨fun _ => ?_, fun hgf => ?_⟩
        · cases hv : w.onnxVerifyOk <;>
            simp [export_to_onnx, verify_onnx, hx, hg, hr, hv]
        · simp at hgf

/-- C7 amended witness: in the all-successful world the default file exists
and the success trace contains the relocation. -/
theorem export_relocates_iff_default_exists_witness :
    (export_to_onnx cOk wOk).1 = true ∧ wOk.generatedOnnxExists = true ∧
      Event.renameOnnx ∈ (export_to_onnx cOk wOk).2 := by
  have h := export_relocates_iff_default_exists cOk wOk rfl
  exact ⟨rfl, rfl, h.1 rfl⟩

/-- C8: the process exit status is always 0 or 1, and it is 0 exactly when
the source file exists, the output-directory creation does not raise, and the
requested conversion body completes with aggregate success; a missing input
file, an exception reaching `main`'s top level, or an aggregate conversion
failure all yield 1. -/
theorem exit_code_zero_iff_full_success (a : Args) (w : World) :
    (processExit a w = 0 ∨ processExit a w = 1)
    ∧ (processExit a w = 0 ↔
        w.sourceExists = true ∧ w.mkdirOk = PyResult.ok () ∧
          (mainBody a (converterOf a) w).1 = PyResult.ok true) := by
  cases hse : w.sourceExists with
  | false => simp [processExit, mainResult, hse]
  | true =>
    cases hmk : w.mkdirOk with
    | exn s => simp [processExit, mainResult, hse, hmk]
    | ok u =>
      cases u
      cases hb : (mainBody a (converterOf a) w).1 with
      | ok b => cases b <;> simp [processExit, mainResult, hse, hmk, hb]
      | exn s => simp [processExit, mainResult, hse, hmk, hb]

/-- C8 witness: the all-successful world exits with status 0. -/
theorem exit_code_zero_iff_full_success_witness :
    processExit argsAll wOk = 0 := by
  have h := exit_code_zero_iff_full_success argsAll wOk
  exact h.2.mpr ⟨rfl, rfl, rfl⟩

/-- C9: the ONNX verification helper catches every exception internally and
returns the boolean `False`, and the export step's result is invariant under
every possible outcome of the structural check, so no outcome of that check
can make export report failure. -/
theorem export_ignores_onnx_verification (c : Converter) (w : World) :
    (∀ s, (verify_onnx { w with onnxVerifyOk := PyResult.exn s }).1 = false)
    ∧ (∀ r, (export_to_onnx c { w with onnxVerifyOk := r }).1 =
        (export_to_onnx c w).1) := by
  constructor
  · intro s; rfl
  · intro r
    rw [export_result_eq, export_result_eq]

/-- C10: in the single-quantization-mode path, whenever export succeeds the
metadata sidecar write is performed even though the convert step failed, so
the run exits with status 1 while the trace contains a fresh metadata
write. -/
theorem single_mode_metadata_written_on_failure (a : Args) (w : World)
    (hq : a.quantization = "none" ∨ a.quantization = "fp16" ∨ a.quantization = "int8")
    (hse : w.sourceExists = true) (hmk : w.mkdirOk = PyResult.ok ())
    (hl : w.loadOk = PyResult.ok ())
    (he : (export_to_onnx (converterOf a) w).1 = true)
    (hcv : (convert_to_tflite (converterOf a) w a.quantization).1 = false) :
    processExit a w = 1
    ∧ Event.writeMetadata (metadataPath (converterOf a)) ∈ (mainResult a w).2 := by
  have hna : ¬ (a.quantization = "all") := by
    rcases hq with h | h | h <;> rw [h] <;> decide
  cases hm : w.metadataOk with
  | exn s =>
    constructor
    · simp [processExit, mainResult, mainBody, load_yolo_model, create_model_metadata,
        hse, hmk, hl, he, hcv, hm, hna]
    · simp [mainResult, mainBody, load_yolo_model, create_model_metadata,
        hse, hmk, hl, he, hcv, hm, hna]
  | ok _ =>
    constructor
    · simp [processExit, mainResult, mainBody, load_yolo_model, create_model_metadata,
        hse, hmk, hl, he, hcv, hm, hna]
    · simp [mainResult, mainBody, load_yolo_model, create_model_metadata,
        hse, hmk, hl, he, hcv, hm, hna]

/-- C10 witness: a concrete single-mode run whose conversion call raises:
exit status 1 and a metadata write in the trace. -/
theorem single_mode_metadata_written_on_failure_witness :
    (convert_to_tflite (converterOf argsNone) wConvertFails "none").1 = false ∧
      processExit argsNone wConvertFails = 1 ∧
      Event.writeMetadata (metadataPath (converterOf argsNone)) ∈
        (mainResult argsNone wConvertFails).2 := by
  have h := single_mode_metadata_written_on_failure argsNone wConvertFails
    (Or.inl rfl) rfl rfl rfl rfl rfl
  exact ⟨rfl, h.1, h.2⟩

end GolfConv
